import Mathlib

/-!
Verification development for the image-browser repository.

The development shallowly embeds the core of the repository:
the pagination loader of the image grid (the loadMore callback in
ImageGrid, file src/components/InfiniteScrollTrigger.tsx), the pixel
transform module (src/lib/image-effects.ts) and the image source client
(fetchSingleImage and friends in lib/picsum-api.ts). React state updates
are modelled by explicit state passing; asynchronous fetch results are
passed in as explicit values; DOM side effects are modelled as event
traces.
-/

namespace ImageBrowser

/-- One image record of the Picsum Photos API, from the PicsumImage
interface of types/picsum.ts. -/
structure PicsumImage where
  id : String
  author : String
  width : Nat
  height : Nat
  url : String
  download_url : String
deriving DecidableEq, Repr

/-- The observable outcome of one fetchPicsumImages call as seen by the
loadMore callback: either a decoded list of records, or a thrown failure
carrying a message. -/
inductive FetchResult where
  | success (records : List PicsumImage)
  | failure (msg : String)
deriving DecidableEq, Repr

/-- The state held by the ImageGrid component: the five useState hooks
images, page, isLoading, hasMore and error. -/
structure GridState where
  images : List PicsumImage
  page : Nat
  isLoading : Bool
  hasMore : Bool
  error : Option String
deriving DecidableEq, Repr

/-- The synchronous prefix of loadMore, up to the suspension point of the
awaited fetch: the guard `if (isLoading or not hasMore) return`, then
setIsLoading(true), setError(null), and the request for page + 1.  The
second component is the page number of the issued network request, or none
when the guard made the call a no-op and no request was issued. -/
def loadMoreStart (s : GridState) : GridState × Option Nat :=
  if s.isLoading || !s.hasMore then (s, none)
  else ({ s with isLoading := true, error := none }, some (s.page + 1))

/-- The continuation of loadMore after the awaited fetch resolves:
an empty array sets hasMore to false; a nonempty array is appended to the
held list and the page cursor advances; a thrown failure stores its
message in error.  The finally block sets isLoading back to false on every
path. -/
def loadMoreFinish (s : GridState) (resp : FetchResult) : GridState :=
  match resp with
  | .success [] => { s with hasMore := false, isLoading := false }
  | .success (r :: rs) =>
      { s with images := s.images ++ (r :: rs), page := s.page + 1, isLoading := false }
  | .failure msg => { s with error := some msg, isLoading := false }

/-- One complete invocation of loadMore, given the result the fetch would
resolve with.  Returns the final state and the page number of the network
request that was issued, or none when the guard suppressed the call. -/
def loadMore (s : GridState) (resp : FetchResult) : GridState × Option Nat :=
  match loadMoreStart s with
  | (s1, none) => (s1, none)
  | (s1, some p) => (loadMoreFinish s1 resp, some p)

/-- A sequence of complete loadMore invocations; the second component
counts the network requests actually issued. -/
def runLoader : GridState → List FetchResult → GridState × Nat
  | s, [] => (s, 0)
  | s, r :: rs =>
      ((runLoader (loadMore s r).1 rs).1,
        (if (loadMore s r).2.isSome then 1 else 0) + (runLoader (loadMore s r).1 rs).2)

/-- The guard of the IntersectionObserver effect in InfiniteScrollTrigger:
the observer is only installed when hasMore holds and no load is in
flight (`if (!currentTrigger or !hasMore or isLoading) return`). -/
def shouldObserve (isLoading hasMore : Bool) : Bool :=
  hasMore && !isLoading

/-- C1: a loadMore invocation that passes the guard and resolves with N > 0
records appends them at the end of the held list in arrival order, with no
re-sorting and no de-duplication, grows the list length by exactly N,
advances the page cursor by exactly 1, and issued the request for
page + 1; hasMore stays true and the loading flag is released. -/
theorem loadMore_success_appends (s : GridState) (recs : List PicsumImage)
    (hL : s.isLoading = false) (hM : s.hasMore = true) (hN : recs ≠ []) :
    (loadMore s (.success recs)).1.images = s.images ++ recs ∧
    (loadMore s (.success recs)).1.images.length = s.images.length + recs.length ∧
    (loadMore s (.success recs)).1.page = s.page + 1 ∧
    (loadMore s (.success recs)).1.hasMore = true ∧
    (loadMore s (.success recs)).1.isLoading = false ∧
    (loadMore s (.success recs)).2 = some (s.page + 1) := by
  cases recs with
  | nil => exact absurd rfl hN
  | cons r rs =>
      simp [loadMore, loadMoreStart, loadMoreFinish, hL, hM]

/-- A sample record, the dog picture of the API documentation. -/
def sampleImage : PicsumImage :=
  { id := "237", author := "Andre Spieker", width := 3500, height := 2095,
    url := "https://unsplash.com/photos/8wTPqxlnKM4",
    download_url := "https://picsum.photos/id/237/3500/2095" }

/-- The loader state of a freshly mounted grid that already holds one
server-fetched page. -/
def freshState : GridState :=
  { images := [sampleImage], page := 1, isLoading := false, hasMore := true, error := none }

theorem loadMore_success_appends_witness :
    (loadMore freshState (.success [sampleImage, sampleImage])).1.images
        = freshState.images ++ [sampleImage, sampleImage] ∧
    (loadMore freshState (.success [sampleImage, sampleImage])).1.images.length
        = freshState.images.length + 2 ∧
    (loadMore freshState (.success [sampleImage, sampleImage])).1.page = freshState.page + 1 ∧
    (loadMore freshState (.success [sampleImage, sampleImage])).1.hasMore = true ∧
    (loadMore freshState (.success [sampleImage, sampleImage])).1.isLoading = false ∧
    (loadMore freshState (.success [sampleImage, sampleImage])).2 = some (freshState.page + 1) :=
  loadMore_success_appends freshState [sampleImage, sampleImage] rfl rfl (by simp)

/-- C2: once hasMore is false the state is terminal: every later loadMore
invocation, however triggered, is a no-op that changes no loader field,
and any sequence of invocations issues zero network requests and leaves
the state exactly as it was. -/
theorem loader_exhausted_terminal (s : GridState) (hM : s.hasMore = false) :
    (∀ r, loadMore s r = (s, none)) ∧
    (∀ resps : List FetchResult, runLoader s resps = (s, 0)) := by
  have hstep : ∀ r, loadMore s r = (s, none) := by
    intro r
    simp [loadMore, loadMoreStart, hM]
  refine ⟨hstep, ?_⟩
  intro resps
  induction resps with
  | nil => rfl
  | cons r rs ih => simp [runLoader, hstep, ih]

/-- The loader state after exhaustion has been signalled. -/
def exhaustedState : GridState :=
  { images := [sampleImage], page := 4, isLoading := false, hasMore := false, error := none }

theorem loader_exhausted_terminal_witness :
    loadMore exhaustedState (.success [sampleImage]) = (exhaustedState, none) ∧
    runLoader exhaustedState [.success [sampleImage], .failure "boom"] = (exhaustedState, 0) :=
  ⟨(loader_exhausted_terminal exhaustedState rfl).1 _,
    (loader_exhausted_terminal exhaustedState rfl).2 _⟩

/-- C3: at most one page fetch is in flight.  A loadMore call made while
isLoading holds, or after exhaustion, is a no-op issuing no request; while
a load is in flight the scroll trigger does not even install its observer;
and of two loadMore invocations in immediate succession only the first
issues a network request, the second finds isLoading set and does
nothing. -/
theorem loadMore_single_flight (s : GridState) (r : FetchResult) :
    (s.isLoading = true ∨ s.hasMore = false → loadMore s r = (s, none)) ∧
    (∀ hm, shouldObserve true hm = false) ∧
    (s.isLoading = false → s.hasMore = true →
      (loadMoreStart s).2 = some (s.page + 1) ∧
      loadMoreStart (loadMoreStart s).1 = ((loadMoreStart s).1, none)) := by
  refine ⟨?_, ?_, ?_⟩
  · rintro (hL | hM)
    · simp [loadMore, loadMoreStart, hL]
    · simp [loadMore, loadMoreStart, hM]
  · intro hm
    simp [shouldObserve]
  · intro hL hM
    constructor
    · simp [loadMoreStart, hL, hM]
    · simp [loadMoreStart, hL, hM]

/-- The loader state while a page fetch is in flight. -/
def inFlightState : GridState :=
  { images := [sampleImage], page := 2, isLoading := true, hasMore := true, error := none }

theorem loadMore_single_flight_witness :
    loadMore inFlightState (.success [sampleImage]) = (inFlightState, none) ∧
    (loadMoreStart freshState).2 = some (freshState.page + 1) ∧
    loadMoreStart (loadMoreStart freshState).1 = ((loadMoreStart freshState).1, none) :=
  ⟨(loadMore_single_flight inFlightState (.success [sampleImage])).1 (Or.inl rfl),
    ((loadMore_single_flight freshState (.success [sampleImage])).2.2 rfl rfl).1,
    ((loadMore_single_flight freshState (.success [sampleImage])).2.2 rfl rfl).2⟩

/-- C4: a loadMore invocation that passes the guard and ends in a
transport or parse failure stores the failure message in error (never
swallowed), leaves the held list, the page cursor and hasMore unchanged,
releases the loading flag, and a subsequent retry targets the very same
page cursor + 1 that the failed attempt requested. -/
theorem loadMore_failure_preserves (s : GridState) (msg : String)
    (hL : s.isLoading = false) (hM : s.hasMore = true) :
    (loadMore s (.failure msg)).1.error = some msg ∧
    (loadMore s (.failure msg)).1.images = s.images ∧
    (loadMore s (.failure msg)).1.page = s.page ∧
    (loadMore s (.failure msg)).1.hasMore = s.hasMore ∧
    (loadMore s (.failure msg)).1.isLoading = false ∧
    (loadMore s (.failure msg)).2 = some (s.page + 1) ∧
    (loadMoreStart (loadMore s (.failure msg)).1).2 = some (s.page + 1) := by
  simp [loadMore, loadMoreStart, loadMoreFinish, hL, hM]

theorem loadMore_failure_preserves_witness :
    (loadMore freshState (.failure "Failed to fetch images: boom")).1.error
        = some "Failed to fetch images: boom" ∧
    (loadMore freshState (.failure "Failed to fetch images: boom")).1.images
        = freshState.images ∧
    (loadMore freshState (.failure "Failed to fetch images: boom")).1.page = freshState.page ∧
    (loadMore freshState (.failure "Failed to fetch images: boom")).1.hasMore
        = freshState.hasMore ∧
    (loadMore freshState (.failure "Failed to fetch images: boom")).1.isLoading = false ∧
    (loadMore freshState (.failure "Failed to fetch images: boom")).2
        = some (freshState.page + 1) ∧
    (loadMoreStart (loadMore freshState (.failure "Failed to fetch images: boom")).1).2
        = some (freshState.page + 1) :=
  loadMore_failure_preserves freshState "Failed to fetch images: boom" rfl rfl

/-- A loader state carrying a pending error message, as left behind by a
failed fetch; hasMore is still true, so a retry passes the guard. -/
def erroredState : GridState :=
  { images := [sampleImage], page := 3, isLoading := false, hasMore := true,
    error := some "Failed to fetch images: boom" }

/-- C10 counterexample: an empty page does not leave the error field
unchanged.  Starting from a state whose error field carries a message, a
loadMore invocation that resolves with an empty page reaches the
exhausted state, yet its error field has changed: loadMore clears it with
setError(null) before issuing the fetch. -/
theorem loadMore_empty_page_counterexample :
    (loadMore erroredState (.success [])).1.hasMore = false ∧
    (loadMore erroredState (.success [])).1.error ≠ erroredState.error := by
  constructor
  · rfl
  · simp [loadMore, loadMoreStart, loadMoreFinish, erroredState]

/-- C10 amended: when a loadMore invocation that passes the guard resolves
with an empty page, hasMore becomes false, the error field is cleared to
none (it is not left unchanged), and the page cursor, the held list and
the loading flag are unchanged: the cursor is not advanced for the empty
fetch. -/
theorem loadMore_empty_page_frame (s : GridState)
    (hL : s.isLoading = false) (hM : s.hasMore = true) :
    (loadMore s (.success [])).1.hasMore = false ∧
    (loadMore s (.success [])).1.error = none ∧
    (loadMore s (.success [])).1.images = s.images ∧
    (loadMore s (.success [])).1.page = s.page ∧
    (loadMore s (.success [])).1.isLoading = false ∧
    (loadMore s (.success [])).2 = some (s.page + 1) := by
  simp [loadMore, loadMoreStart, loadMoreFinish, hL, hM]

theorem loadMore_empty_page_frame_witness :
    (loadMore freshState (.success [])).1.hasMore = false ∧
    (loadMore freshState (.success [])).1.error = none ∧
    (loadMore freshState (.success [])).1.images = freshState.images ∧
    (loadMore freshState (.success [])).1.page = freshState.page ∧
    (loadMore freshState (.success [])).1.isLoading = false ∧
    (loadMore freshState (.success [])).2 = some (freshState.page + 1) :=
  loadMore_empty_page_frame freshState rfl rfl

/-! ### Pixel transform module, src/lib/image-effects.ts -/

/-- JPEG encoding quality passed to toDataURL by both transforms
(source constant JPEG_QUALITY = 0.95). -/
def jpegQuality : ℚ := 95 / 100

/-- Default blur radius (source constant DEFAULT_BLUR_RADIUS = 10). -/
def defaultBlurRadius : Nat := 10

/-- Delay before the temporary blob URL is revoked
(source constant BLOB_CLEANUP_DELAY_MS = 100). -/
def blobCleanupDelayMs : Nat := 100

/-- One step of the grayscale loop: avg = (r + g + b) / 3 written back into
a Uint8ClampedArray slot.  The store clamps to [0, 255] and rounds to the
nearest integer; the exact fractional part of the mean is 0, 1/3 or 2/3,
so ties never arise and the stored value is (r + g + b + 1) / 3 in natural
division, clamped at 255. -/
def grayAvg (r g b : Nat) : Nat :=
  min ((r + g + b + 1) / 3) 255

/-- The grayscale loop over the flat RGBA byte stream of an ImageData: for
each group of four bytes the three color slots receive the mean and the
alpha slot is left unchanged.  A real ImageData buffer always has length a
multiple of four, so the fall-through leftover case never fires on real
input. -/
def applyGrayscaleData : List Nat → List Nat
  | r :: g :: b :: a :: rest =>
      grayAvg r g b :: grayAvg r g b :: grayAvg r g b :: a :: applyGrayscaleData rest
  | rest => rest

/-- A decoded bitmap handed to the transforms: the natural pixel
dimensions of the HTMLImageElement and its decoded RGBA byte stream. -/
structure ImageElement where
  naturalWidth : Nat
  naturalHeight : Nat
  pixels : List Nat
deriving DecidableEq, Repr

/-- The observable content of the data URL returned by
canvas.toDataURL("image/jpeg", JPEG_QUALITY): the canvas dimensions, the
requested encoding and quality, and the pixel data drawn on the canvas. -/
structure EncodedOutput where
  width : Nat
  height : Nat
  mime : String
  quality : ℚ
  pixelData : List Nat
deriving DecidableEq, Repr

/-- applyGrayscale: a canvas of the natural dimensions of the image, the
grayscale loop over its pixel data, then JPEG encoding at fixed
quality. -/
def applyGrayscale (img : ImageElement) : EncodedOutput :=
  { width := img.naturalWidth, height := img.naturalHeight,
    mime := "image/jpeg", quality := jpegQuality,
    pixelData := applyGrayscaleData img.pixels }

/-- applyBlur with an explicit radius: a canvas of the natural dimensions
of the image, drawImage under ctx.filter = blur(radius px) — the
convolution itself is the platform native filter, passed in here as the
parameter blurFilter — then the same JPEG encoding path as grayscale. -/
def applyBlur (blurFilter : Nat → List Nat → List Nat)
    (img : ImageElement) (radius : Nat) : EncodedOutput :=
  { width := img.naturalWidth, height := img.naturalHeight,
    mime := "image/jpeg", quality := jpegQuality,
    pixelData := blurFilter radius img.pixels }

/-- applyBlur with the radius argument omitted: the source default
parameter radius = DEFAULT_BLUR_RADIUS applies. -/
def applyBlurDefault (blurFilter : Nat → List Nat → List Nat)
    (img : ImageElement) : EncodedOutput :=
  applyBlur blurFilter img defaultBlurRadius

/-- C5: on every pixel of the byte stream the grayscale loop replaces each
of the three color channels with one common value m, passes the alpha byte
through unchanged, and recurses on the remaining pixels; for byte-valued
channels m is the unweighted arithmetic mean of the three original
channels, up to sub-unit rounding: 3m differs from r + g + b by at most
1. -/
theorem grayscale_pixel_mean (r g b a : Nat) (rest : List Nat)
    (hr : r ≤ 255) (hg : g ≤ 255) (hb : b ≤ 255) :
    applyGrayscaleData (r :: g :: b :: a :: rest)
      = grayAvg r g b :: grayAvg r g b :: grayAvg r g b :: a :: applyGrayscaleData rest ∧
    3 * grayAvg r g b ≤ r + g + b + 1 ∧
    r + g + b ≤ 3 * grayAvg r g b + 1 := by
  refine ⟨rfl, ?_, ?_⟩ <;>
  · have hmin : grayAvg r g b = (r + g + b + 1) / 3 := by
      unfold grayAvg
      exact Nat.min_eq_left (by omega)
    rw [hmin]
    omega

theorem grayscale_pixel_mean_witness :
    (10 : Nat) ≤ 255 ∧ (20 : Nat) ≤ 255 ∧ (36 : Nat) ≤ 255 ∧
    (applyGrayscaleData [10, 20, 36, 255]
        = grayAvg 10 20 36 :: grayAvg 10 20 36 :: grayAvg 10 20 36 :: 255
            :: applyGrayscaleData [] ∧
      3 * grayAvg 10 20 36 ≤ 10 + 20 + 36 + 1 ∧
      10 + 20 + 36 ≤ 3 * grayAvg 10 20 36 + 1) :=
  ⟨by decide, by decide, by decide,
    grayscale_pixel_mean 10 20 36 255 [] (by decide) (by decide) (by decide)⟩

/-- The mean written by the grayscale loop is itself a byte value. -/
theorem grayAvg_le (r g b : Nat) : grayAvg r g b ≤ 255 :=
  Nat.min_le_right _ _

/-- A pixel whose three color channels already agree on a byte value is a
fixed point of the grayscale step. -/
theorem grayAvg_self (v : Nat) (hv : v ≤ 255) : grayAvg v v v = v := by
  unfold grayAvg
  have h3 : (v + v + v + 1) / 3 = v := by omega
  rw [h3]
  exact Nat.min_eq_left hv

/-- C6: the grayscale transform is idempotent in color content.  A pixel
whose three color channels are already equal to a common byte value is
left entirely unchanged by the loop, and consequently applying the loop
twice to any byte stream yields exactly the pixel values of applying it
once. -/
theorem grayscale_idempotent :
    (∀ (v a : Nat) (rest : List Nat), v ≤ 255 →
      applyGrayscaleData (v :: v :: v :: a :: rest)
        = v :: v :: v :: a :: applyGrayscaleData rest) ∧
    (∀ d : List Nat, applyGrayscaleData (applyGrayscaleData d) = applyGrayscaleData d) := by
  constructor
  · intro v a rest hv
    simp [applyGrayscaleData, grayAvg_self v hv]
  · intro d
    induction d using applyGrayscaleData.induct with
    | case1 r g b a rest ih =>
        simp [applyGrayscaleData, ih, grayAvg_self _ (grayAvg_le r g b)]
    | case2 rest h =>
        match rest, h with
        | [], _ => rfl
        | [x], _ => rfl
        | [x, y], _ => rfl
        | [x, y, z], _ => rfl
        | x :: y :: z :: w :: rest, h => exact absurd rfl (h x y z w rest)

theorem grayscale_idempotent_witness :
    ((7 : Nat) ≤ 255 ∧
      applyGrayscaleData [7, 7, 7, 200] = 7 :: 7 :: 7 :: 200 :: applyGrayscaleData []) ∧
    applyGrayscaleData (applyGrayscaleData [10, 20, 36, 255])
      = applyGrayscaleData [10, 20, 36, 255] :=
  ⟨⟨by decide, grayscale_idempotent.1 7 200 [] (by decide)⟩,
    grayscale_idempotent.2 [10, 20, 36, 255]⟩

/-- C7: the blur radius defaults to 10 when omitted, and for every bitmap
and every radius — 0 and the omitted default included — the output
dimensions equal the natural dimensions of the input, produced through the
same output path as grayscale: JPEG at the same fixed quality 0.95. -/
theorem applyBlur_dimensions :
    defaultBlurRadius = 10 ∧
    (∀ f img, applyBlurDefault f img = applyBlur f img 10) ∧
    (∀ (f : Nat → List Nat → List Nat) (img : ImageElement) (radius : Nat),
      (applyBlur f img radius).width = img.naturalWidth ∧
      (applyBlur f img radius).height = img.naturalHeight ∧
      (applyBlur f img radius).mime = (applyGrayscale img).mime ∧
      (applyBlur f img radius).quality = (applyGrayscale img).quality ∧
      (applyGrayscale img).mime = "image/jpeg" ∧
      (applyGrayscale img).quality = 95 / 100) := by
  refine ⟨rfl, fun f img => rfl, fun f img radius => ?_⟩
  exact ⟨rfl, rfl, rfl, rfl, rfl, rfl⟩

/-! ### Image source client, lib/picsum-api.ts -/

/-- Outcome of response.json() for the single-record endpoint: a decoded
record, or a rejected parse carrying a message. -/
inductive JsonOutcome where
  | parsed (img : PicsumImage)
  | parseFailure (msg : String)
deriving DecidableEq, Repr

/-- Outcome of the awaited fetch: a settled Response with status, status
text and body, or a rejected transport call carrying a message. -/
inductive HttpOutcome where
  | response (status : Nat) (statusText : String) (body : JsonOutcome)
  | networkFailure (msg : String)
deriving DecidableEq, Repr

/-- Response.ok of the Fetch API: status in the inclusive range
200 to 299. -/
def responseOk (status : Nat) : Bool :=
  200 ≤ status && status ≤ 299

/-- The not-found message thrown by fetchSingleImage on a 404 status; it
names the missing identifier. -/
def notFoundMessage (imageId : String) : String :=
  "Image with ID \"" ++ imageId ++ "\" not found"

/-- The generic message thrown by fetchSingleImage on any other non-2xx
status. -/
def apiErrorMessage (status : Nat) (statusText : String) : String :=
  "Picsum API error: " ++ toString status ++ " " ++ statusText

/-- fetchSingleImage, given the identifier and the observable outcome of
the fetch.  All branches thrown inside the try block are Error instances,
so the catch block rethrows them unchanged; its fallback message for a
non-Error throw is unreachable in this model. -/
def fetchSingleImage (imageId : String) (outcome : HttpOutcome) :
    Except String PicsumImage :=
  match outcome with
  | .networkFailure msg => .error msg
  | .response status statusText body =>
      if responseOk status then
        match body with
        | .parsed img => .ok img
        | .parseFailure msg => .error msg
      else if status == 404 then
        .error (notFoundMessage imageId)
      else
        .error (apiErrorMessage status statusText)

/-- C8: the single-record lookup fails distinguishably.  A 404 status
yields the not-found error naming the missing identifier; every other
non-2xx status yields the generic API error; a rejected transport call
propagates its own message; and the not-found message never coincides with
the generic API error message, so a caller can tell the conditions
apart. -/
theorem fetchSingleImage_distinguishes (imageId : String) :
    (∀ statusText body,
      fetchSingleImage imageId (.response 404 statusText body)
        = .error (notFoundMessage imageId)) ∧
    (∀ status statusText body, responseOk status = false → status ≠ 404 →
      fetchSingleImage imageId (.response status statusText body)
        = .error (apiErrorMessage status statusText)) ∧
    (∀ msg, fetchSingleImage imageId (.networkFailure msg) = .error msg) ∧
    (∀ (id2 statusText : String) (status : Nat),
      notFoundMessage id2 ≠ apiErrorMessage status statusText) := by
  refine ⟨?_, ?_, fun msg => rfl, ?_⟩
  · intro statusText body
    simp [fetchSingleImage, responseOk]
  · intro status statusText body hOk h404
    simp [fetchSingleImage, hOk, h404]
  · intro id2 statusText status h
    have h2 := congrArg String.data h
    simp only [notFoundMessage, apiErrorMessage, String.data_append] at h2
    simp at h2

theorem fetchSingleImage_distinguishes_witness :
    fetchSingleImage "does-not-exist" (.response 404 "Not Found" (.parseFailure "bad json"))
      = .error (notFoundMessage "does-not-exist") ∧
    responseOk 500 = false ∧
    fetchSingleImage "does-not-exist" (.response 500 "Server Error" (.parseFailure "bad json"))
      = .error (apiErrorMessage 500 "Server Error") ∧
    fetchSingleImage "does-not-exist" (.networkFailure "Failed to fetch")
      = .error "Failed to fetch" ∧
    notFoundMessage "does-not-exist" ≠ apiErrorMessage 500 "Server Error" :=
  ⟨(fetchSingleImage_distinguishes "does-not-exist").1 "Not Found" (.parseFailure "bad json"),
    by decide,
    (fetchSingleImage_distinguishes "does-not-exist").2.1 500 "Server Error"
      (.parseFailure "bad json") (by decide) (by decide),
    (fetchSingleImage_distinguishes "does-not-exist").2.2.1 "Failed to fetch",
    (fetchSingleImage_distinguishes "does-not-exist").2.2.2 "does-not-exist" "Server Error" 500⟩

/-! ### Download, src/lib/image-effects.ts -/

/-- The test `imageUrl.startsWith("data:")` that selects the direct save
branch of downloadImage, over the character content of the string. -/
def isDataUrl (u : String) : Bool :=
  "data:".data.isPrefixOf u.data

/-- Model of URL.createObjectURL: the temporary local object reference
minted for a fetched blob. -/
def blobUrlFor (blob : String) : String :=
  "blob:" ++ blob

/-- The observable DOM effects of downloadImage, in program order. -/
inductive DownloadEvent where
  | createObjectURL (url : String)
  | triggerSave (href : String) (filename : String)
  | scheduleRevoke (url : String) (delayMs : Nat)
deriving DecidableEq, Repr

/-- downloadImage, given the URL, the filename and the outcome the blob
fetch would resolve with.  A data URL is saved directly with no fetch; a
remote URL is fetched, materialised as a blob URL, saved through an anchor
click, and the blob URL is scheduled for revocation after
BLOB_CLEANUP_DELAY_MS; a failed fetch is rethrown as the fixed download
failure message. -/
def downloadImage (imageUrl filename : String) (fetched : Except String String) :
    Except String (List DownloadEvent) :=
  if isDataUrl imageUrl then
    .ok [.triggerSave imageUrl filename]
  else
    match fetched with
    | .error _ => .error "Failed to download image"
    | .ok blob =>
        .ok [.createObjectURL (blobUrlFor blob),
          .triggerSave (blobUrlFor blob) filename,
          .scheduleRevoke (blobUrlFor blob) blobCleanupDelayMs]

/-- How many temporary object references a trace creates. -/
def countCreated (evs : List DownloadEvent) : Nat :=
  evs.countP fun e =>
    match e with
    | .createObjectURL _ => true
    | _ => false

/-- How many revocations of a given reference a trace schedules. -/
def countRevokesOf (u : String) (evs : List DownloadEvent) : Nat :=
  evs.countP fun e =>
    match e with
    | .scheduleRevoke v _ => v == u
    | _ => false

/-- C9: a successful download of a remote, non-data URL creates exactly
one temporary local object reference, triggers the save with that very
reference, and schedules exactly one release of it a positive bounded
delay after the save trigger — not synchronously and not left unreleased —
so repeated downloads accumulate no unreleased references. -/
theorem downloadImage_remote_lifecycle (imageUrl filename blob : String)
    (hRemote : isDataUrl imageUrl = false) :
    downloadImage imageUrl filename (.ok blob)
      = .ok [.createObjectURL (blobUrlFor blob),
          .triggerSave (blobUrlFor blob) filename,
          .scheduleRevoke (blobUrlFor blob) blobCleanupDelayMs] ∧
    countCreated [DownloadEvent.createObjectURL (blobUrlFor blob),
        .triggerSave (blobUrlFor blob) filename,
        .scheduleRevoke (blobUrlFor blob) blobCleanupDelayMs] = 1 ∧
    countRevokesOf (blobUrlFor blob)
      [DownloadEvent.createObjectURL (blobUrlFor blob),
        .triggerSave (blobUrlFor blob) filename,
        .scheduleRevoke (blobUrlFor blob) blobCleanupDelayMs] = 1 ∧
    0 < blobCleanupDelayMs := by
  refine ⟨?_, ?_, ?_, by decide⟩
  · simp [downloadImage, hRemote]
  · simp [countCreated, List.countP_cons]
  · simp [countRevokesOf, List.countP_cons]

theorem downloadImage_remote_lifecycle_witness :
    isDataUrl "https://picsum.photos/id/237/3500/2095" = false ∧
    (downloadImage "https://picsum.photos/id/237/3500/2095" "237.jpg" (.ok "b0")
        = .ok [.createObjectURL (blobUrlFor "b0"),
            .triggerSave (blobUrlFor "b0") "237.jpg",
            .scheduleRevoke (blobUrlFor "b0") blobCleanupDelayMs] ∧
      countCreated [DownloadEvent.createObjectURL (blobUrlFor "b0"),
          .triggerSave (blobUrlFor "b0") "237.jpg",
          .scheduleRevoke (blobUrlFor "b0") blobCleanupDelayMs] = 1 ∧
      countRevokesOf (blobUrlFor "b0")
        [DownloadEvent.createObjectURL (blobUrlFor "b0"),
          .triggerSave (blobUrlFor "b0") "237.jpg",
          .scheduleRevoke (blobUrlFor "b0") blobCleanupDelayMs] = 1 ∧
      0 < blobCleanupDelayMs) :=
  ⟨rfl, downloadImage_remote_lifecycle "https://picsum.photos/id/237/3500/2095"
    "237.jpg" "b0" rfl⟩

end ImageBrowser
